import Mathlib

/-!
Shallow embedding of the `nuts` publish-subscribe library.

Embedded directly from source:
  - `src/nut/iac/filter.rs` (`SubscriptionFilter`, `ActivityContainer::filter`)
  - `src/nut/iac/managed_state/domain_state.rs` (`DomainState` and its accessors)
  - `src/lib.rs` (public wrappers `new_activity`, `new_domained_activity`,
    `store_to_domain`, `publish`)

The internal `nut` module (activity registry, topic registry, publish queue /
dispatch loop, `write_domain`) is not part of the provided sources; those
components are modelled from the specification and marked as such in their
doc comments.

Modelling conventions:
  - Rust `TypeId` values are modelled as `Nat`; two Rust types are distinct
    iff their modelled type ids are distinct.
  - Stored payload values are modelled as `Nat` (the claims never inspect the
    payload beyond equality).
  - Rust panics (`unwrap`, `expect`) are made observable through the
    `PanicOr` result type, carrying the panic message.
  - Mutable borrows are erased: `try_get_mut`/`get_mut` have the same
    observable read behaviour as their shared counterparts, which is modelled
    with separate definitions mirroring the separate source functions.
-/

/-- Result of a Rust computation that may panic: either a normal value or a
panic carrying its message. -/
inductive PanicOr (α : Type) where
  | panic (msg : String)
  | ok (a : α)
deriving DecidableEq, Repr

/-- Lifecycle status of an activity (`Active` | `Inactive`), from the spec's
data model (the defining Rust enum is outside the provided sources). -/
inductive LifecycleStatus where
  | Active
  | Inactive
deriving DecidableEq, Repr

/-- Modelled from the spec: `is_active` returns whether the status is
`Active` (used by the filter check in `filter.rs`). -/
def LifecycleStatus.is_active : LifecycleStatus → Bool
  | .Active => true
  | .Inactive => false

/-- Structure `SubscriptionFilter` from `src/nut/iac/filter.rs`: only field is
`active_only`. -/
structure SubscriptionFilter where
  active_only : Bool
deriving DecidableEq, Repr

/-- Rust `impl Default for SubscriptionFilter` from `filter.rs`:
`active_only = true`. -/
def SubscriptionFilter.default : SubscriptionFilter := ⟨true⟩

/-- Constructor `SubscriptionFilter::no_filter` from `filter.rs`: `active_only = false`. -/
def SubscriptionFilter.no_filter : SubscriptionFilter := ⟨false⟩

/-- Domain identifier. The spec reserves a default key for activities
registered without an explicit domain; user domains carry a `Nat` id
(the value of the Rust `DomainEnumeration::id`). -/
inductive DomainId where
  | defaultDomain
  | custom (id : Nat)
deriving DecidableEq, Repr

/-- Value `DomainId::default()` as used by `new_activity` in `lib.rs`: the reserved
default domain key. -/
def DomainId.default : DomainId := .defaultDomain

/-- Constructor `DomainId::new(domain)` as used by `new_domained_activity` in `lib.rs`:
wraps the user enum's numeric id. -/
def DomainId.new (id : Nat) : DomainId := .custom id

/-- The activity registry (`ActivityContainer`). The container type itself is
outside the provided sources; modelled from the spec: it owns, per activity
slot, a `LifecycleStatus` and a `DomainId`, and issues fresh handles
sequentially. Activity ids are `Nat` (the `id` field of `ActivityId<A>`;
the compile-time type tag is erased). -/
structure ActivityContainer where
  next_id : Nat
  status : Nat → LifecycleStatus
  domain : Nat → DomainId

/-- An empty registry: no activity registered yet; unregistered slots report
`Inactive` and the default domain. -/
def ActivityContainer.empty : ActivityContainer :=
  ⟨0, fun _ => .Inactive, fun _ => .defaultDomain⟩

/-- Method `ActivityContainer::filter` from `src/nut/iac/filter.rs`:
`!filter.active_only || self.status(id.id).is_active()`. Returns true if the
call should go through. -/
def ActivityContainer.filter (c : ActivityContainer) (id : Nat)
    (f : SubscriptionFilter) : Bool :=
  !f.active_only || (c.status id).is_active

/-- Modelled from the spec (§4.1 `register`): inserts a new slot with the
given domain and status, returns the fresh handle. `nut::new_activity` is not
in the provided sources. -/
def ActivityContainer.register (c : ActivityContainer) (d : DomainId)
    (st : LifecycleStatus) : Nat × ActivityContainer :=
  (c.next_id,
    ⟨c.next_id + 1,
     fun k => if k = c.next_id then st else c.status k,
     fun k => if k = c.next_id then d else c.domain k⟩)

/-- Modelled from the spec (§4.1 `set_status`): toggles the slot's
`Active`/`Inactive` status; not retroactive. -/
def ActivityContainer.set_status (c : ActivityContainer) (id : Nat)
    (st : LifecycleStatus) : ActivityContainer :=
  ⟨c.next_id, fun k => if k = id then st else c.status k, c.domain⟩

/-- Function `new_activity` from `src/lib.rs`:
`nut::new_activity(activity, DomainId::default(), LifecycleStatus::Active)`.
The consumed activity value lives in the dispatch model's activity state and
is not tracked by the registry model. -/
def new_activity (c : ActivityContainer) : Nat × ActivityContainer :=
  c.register DomainId.default LifecycleStatus.Active

/-- Function `new_domained_activity` from `src/lib.rs`:
`nut::new_activity(activity, DomainId::new(domain), LifecycleStatus::Active)`.
`d` is the numeric id of the user's domain enum value. -/
def new_domained_activity (c : ActivityContainer) (d : Nat) :
    Nat × ActivityContainer :=
  c.register (DomainId.new d) LifecycleStatus.Active

/-- Observable events emitted by subscriber callbacks in the reentrancy
scenario ("Start of n" / "End of n" prints). -/
inductive Event where
  | Start (n : Nat)
  | End (n : Nat)
deriving DecidableEq, Repr

/-- Result of one subscriber callback invocation: the updated activity state,
the events it emitted, and the messages it published (in call order; a
`publish` from inside a callback only enqueues). -/
structure CbOut (Act : Type) where
  act : Act
  events : List Event
  published : List Nat
deriving Repr

/-- A subscriber callback: reads the message, may update the activity state,
emit events and publish further messages. Messages are modelled as `Nat`
payloads of one message type. -/
abbrev Callback (Act : Type) := Act → Nat → CbOut Act

/-- A subscription entry, from the spec's data model: (activity handle,
filter, callback). `tag` identifies the subscription itself in the ghost
invocation trace (the same activity may subscribe several times). -/
structure Subscription (Act : Type) where
  activity_id : Nat
  filter : SubscriptionFilter
  tag : Nat
  callback : Callback Act

/-- Modelled from the spec (§4.3 `subscribe`): appends a subscription entry
to the topic's ordered list; no deduplication. -/
def subscribe {Act : Type} (topic : List (Subscription Act)) (s : Subscription Act) :
    List (Subscription Act) :=
  topic ++ [s]

/-- Output of dispatching one message to a subscription list: final activity
state, emitted events, messages published during the dispatch (in order), and
the ghost trace of tags of the subscriptions actually invoked. -/
structure DispatchOut (Act : Type) where
  act : Act
  events : List Event
  published : List Nat
  invoked : List Nat
deriving Repr

/-- Modelled from the spec (§4.3 `dispatch`): iterates the subscriptions in
registration order; for each, queries `ActivityContainer::filter` and, if it
passes, invokes the callback; publishes from inside callbacks are collected
for the queue (publish-call order). -/
def dispatchMsg {Act : Type} (c : ActivityContainer) (a : Act) (m : Nat) :
    List (Subscription Act) → DispatchOut Act
  | [] => ⟨a, [], [], []⟩
  | s :: rest =>
    if c.filter s.activity_id s.filter then
      let r := s.callback a m
      let out := dispatchMsg c r.act m rest
      ⟨out.act, r.events ++ out.events, r.published ++ out.published,
       s.tag :: out.invoked⟩
    else
      dispatchMsg c a m rest

/-- Modelled from the spec (§4.4 algorithm): the dispatch loop pops the head
message, runs `dispatchMsg` for it to completion (all its subscribers, in
order), appends the messages published meanwhile to the queue tail, and
continues until the queue is empty. Fuel bounds the number of messages
processed (the loop itself has no bound). -/
def dispatchLoop {Act : Type} (c : ActivityContainer) (subs : List (Subscription Act)) :
    Nat → Act → List Nat → Act × List Event
  | 0, a, _ => (a, [])
  | _ + 1, a, [] => (a, [])
  | fuel + 1, a, m :: q =>
    let out := dispatchMsg c a m subs
    let rest := dispatchLoop c subs fuel out.act (q ++ out.published)
    (rest.1, out.events ++ rest.2)

/-- Modelled from the spec (§4.4): a `publish` from the `Idle` state enqueues
the message on the empty queue and runs the dispatch loop. -/
def publish {Act : Type} (c : ActivityContainer) (subs : List (Subscription Act))
    (fuel : Nat) (a : Act) (m : Nat) : Act × List Event :=
  dispatchLoop c subs fuel a [m]

/-- A boxed `dyn Any` value: the `TypeId` of the value's concrete type plus
its payload. -/
structure Boxed where
  tid : Nat
  val : Nat
deriving DecidableEq, Repr

/-- Models `Box<dyn Any>::downcast_ref::<T>()`: it succeeds iff the stored type id
matches the requested one. -/
def downcast_ref (t : Nat) (b : Boxed) : Option Nat :=
  if b.tid = t then some b.val else none

/-- Models `downcast_mut`, same success condition as `downcast_ref` (mutability is
erased in this embedding). -/
def downcast_mut (t : Nat) (b : Boxed) : Option Nat :=
  if b.tid = t then some b.val else none

/-- Structure `DomainState` from `src/nut/iac/managed_state/domain_state.rs`:
`objects: HashMap<TypeId, Box<dyn Any>>`, modelled as a function from the
type-id key to the optionally stored box. -/
structure DomainState where
  objects : Nat → Option Boxed

/-- The `#[derive(Default)]` instance for `DomainState`: the empty map. -/
def DomainState.empty : DomainState := ⟨fun _ => none⟩

/-- Method `DomainState::store` from `domain_state.rs`:
`self.objects.insert(TypeId::of::<T>(), Box::new(obj))`. The inserted box
holds a value whose type id is the key. -/
def DomainState.store (s : DomainState) (t v : Nat) : DomainState :=
  ⟨fun k => if k = t then some ⟨t, v⟩ else s.objects k⟩

/-- Method `DomainState::try_get` from `domain_state.rs`:
`self.objects.get(&TypeId::of::<T>()).map(|obj| obj.as_ref().downcast_ref().unwrap())`.
The `unwrap` panics when the downcast fails. -/
def DomainState.try_get (s : DomainState) (t : Nat) : PanicOr (Option Nat) :=
  match s.objects t with
  | none => .ok none
  | some obj =>
    match downcast_ref t obj with
    | some v => .ok (some v)
    | none => .panic "called `Option::unwrap()` on a `None` value"

/-- Method `DomainState::try_get_mut` from `domain_state.rs`: same shape with
`get_mut`/`downcast_mut`. -/
def DomainState.try_get_mut (s : DomainState) (t : Nat) :
    PanicOr (Option Nat) :=
  match s.objects t with
  | none => .ok none
  | some obj =>
    match downcast_mut t obj with
    | some v => .ok (some v)
    | none => .panic "called `Option::unwrap()` on a `None` value"

/-- Method `DomainState::get` from `domain_state.rs`: the `map(... unwrap)` runs
first when an entry exists; an absent entry hits `.expect("Not in domain")`. -/
def DomainState.get (s : DomainState) (t : Nat) : PanicOr Nat :=
  match s.objects t with
  | none => .panic "Not in domain"
  | some obj =>
    match downcast_ref t obj with
    | some v => .ok v
    | none => .panic "called `Option::unwrap()` on a `None` value"

/-- Method `DomainState::get_mut` from `domain_state.rs`: mutable counterpart of
`get`, same observable behaviour. -/
def DomainState.get_mut (s : DomainState) (t : Nat) : PanicOr Nat :=
  match s.objects t with
  | none => .panic "Not in domain"
  | some obj =>
    match downcast_mut t obj with
    | some v => .ok v
    | none => .panic "called `Option::unwrap()` on a `None` value"

/-- Every entry of the domain map is stored under the type id of the value it
boxes. `DomainState.store` establishes this for every key it writes, so every
state reachable through the public API satisfies it. -/
def DomainState.WellFormed (s : DomainState) : Prop :=
  ∀ t b, s.objects t = some b → b.tid = t

/-- Modelled from the spec (§6, §7): the thread-local nut state as far as
domain writes can see it: one `DomainState` per domain key, plus, per domain,
whether its store has already been read by a running dispatch (in which case
the initialization window is closed). `nut::write_domain` is not in the
provided sources. -/
structure NutState where
  domains : DomainId → DomainState
  initialized : DomainId → Bool

/-- Modelled from the spec (§6 `write_domain`): fails if called after the
store for that domain has already been read by a running dispatch; otherwise
stores the value into the domain and succeeds. -/
def write_domain (s : NutState) (d : DomainId) (t v : Nat) :
    Except String NutState :=
  if s.initialized d then
    .error "domain already initialized"
  else
    .ok ⟨fun k => if k = d then (s.domains d).store t v else s.domains k,
         s.initialized⟩

/-- Function `store_to_domain` from `src/lib.rs`:
`nut::write_domain(domain, data).expect("You cannot use `store_to_domain` after initialization.")`. -/
def store_to_domain (s : NutState) (d : DomainId) (t v : Nat) :
    PanicOr NutState :=
  match write_domain s d t v with
  | .error _ => .panic "You cannot use `store_to_domain` after initialization."
  | .ok s' => .ok s'

/-! ## Helper lemmas (shared) -/

/-- The empty domain map is well-formed. -/
theorem wellFormed_empty : DomainState.WellFormed DomainState.empty := by
  intro t b h
  simp [DomainState.empty] at h

/-- Storing preserves well-formedness: the written entry's box carries the
key's type id. -/
theorem wellFormed_store (s : DomainState) (t v : Nat)
    (hs : s.WellFormed) : (s.store t v).WellFormed := by
  intro k b h
  simp only [DomainState.store] at h
  by_cases hk : k = t
  · simp [hk] at h
    subst hk
    cases h
    rfl
  · simp [hk] at h
    exact hs k b h

/-- The dispatch loop on an empty queue returns immediately. -/
theorem dispatchLoop_nil {Act : Type} (c : ActivityContainer)
    (subs : List (Subscription Act)) (fuel : Nat) (a : Act) :
    dispatchLoop c subs fuel a [] = (a, []) := by
  cases fuel <;> rfl

/-! ## Claims about the domain store -/

/-- C3: storing `v` under type id `t` and reading `t` back returns `v`;
storing `w` under the same type id afterwards makes `try_get` return `w`
(last-writer-wins, the first value is unreachable). -/
theorem c3_store_try_get_roundtrip (s : DomainState) (t v w : Nat) :
    (s.store t v).try_get t = .ok (some v) ∧
    ((s.store t v).store t w).try_get t = .ok (some w) ∧
    ((s.store t v).store t w).objects t = some ⟨t, w⟩ := by
  refine ⟨?_, ?_, ?_⟩ <;>
    simp [DomainState.store, DomainState.try_get, downcast_ref]

/-- C5: on a well-formed domain state, `try_get` and `try_get_mut` never
panic: they return `none` exactly when no value of that type id is stored and
the stored payload otherwise (the downcast-`unwrap` branch is unreachable). -/
theorem c5_try_get_no_panic (s : DomainState) (t : Nat)
    (hs : s.WellFormed) :
    (∀ msg, s.try_get t ≠ .panic msg) ∧
    (∀ msg, s.try_get_mut t ≠ .panic msg) ∧
    (s.objects t = none → s.try_get t = .ok none ∧ s.try_get_mut t = .ok none) ∧
    (∀ b, s.objects t = some b →
      s.try_get t = .ok (some b.val) ∧ s.try_get_mut t = .ok (some b.val)) := by
  have hcase : ∀ b, s.objects t = some b →
      s.try_get t = .ok (some b.val) ∧ s.try_get_mut t = .ok (some b.val) := by
    intro b hb
    have htid : b.tid = t := hs t b hb
    constructor
    · simp [DomainState.try_get, hb, downcast_ref, htid]
    · simp [DomainState.try_get_mut, hb, downcast_mut, htid]
  refine ⟨?_, ?_, ?_, hcase⟩
  · intro msg
    cases hb : s.objects t with
    | none => simp [DomainState.try_get, hb]
    | some b => simp [(hcase b hb).1]
  · intro msg
    cases hb : s.objects t with
    | none => simp [DomainState.try_get_mut, hb]
    | some b => simp [(hcase b hb).2]
  · intro hb
    constructor
    · simp [DomainState.try_get, hb]
    · simp [DomainState.try_get_mut, hb]

/-- C5 witness: on the concrete state holding `7` under type id `3`, reading
type id `3` yields the value and reading the never-stored type id `5` yields
`none`, with no panic. -/
theorem c5_try_get_no_panic_witness :
    ((DomainState.empty.store 3 7).try_get 5 = .ok none ∧
      (DomainState.empty.store 3 7).try_get_mut 5 = .ok none) ∧
    ((DomainState.empty.store 3 7).try_get 3 = .ok (some 7) ∧
      (DomainState.empty.store 3 7).try_get_mut 3 = .ok (some 7)) := by
  have hwf : (DomainState.empty.store 3 7).WellFormed :=
    wellFormed_store _ _ _ wellFormed_empty
  refine ⟨(c5_try_get_no_panic (DomainState.empty.store 3 7) 5 hwf).2.2.1 (by rfl),
          ?_⟩
  have h := (c5_try_get_no_panic (DomainState.empty.store 3 7) 3 hwf).2.2.2
    ⟨3, 7⟩ (by rfl)
  exact h

/-- C6: on a well-formed domain state, `get` and `get_mut` raise the fatal
"Not in domain" error exactly when no value of that type id is stored, and
return the stored payload without error otherwise. -/
theorem c6_get_fatal_iff_absent (s : DomainState) (t : Nat)
    (hs : s.WellFormed) :
    (s.get t = .panic "Not in domain" ↔ s.objects t = none) ∧
    (s.get_mut t = .panic "Not in domain" ↔ s.objects t = none) ∧
    (∀ b, s.objects t = some b → s.get t = .ok b.val ∧ s.get_mut t = .ok b.val) := by
  have hcase : ∀ b, s.objects t = some b →
      s.get t = .ok b.val ∧ s.get_mut t = .ok b.val := by
    intro b hb
    have htid : b.tid = t := hs t b hb
    constructor
    · simp [DomainState.get, hb, downcast_ref, htid]
    · simp [DomainState.get_mut, hb, downcast_mut, htid]
  refine ⟨?_, ?_, hcase⟩
  · constructor
    · intro h
      cases hb : s.objects t with
      | none => rfl
      | some b => simp [(hcase b hb).1] at h
    · intro hb
      simp [DomainState.get, hb]
  · constructor
    · intro h
      cases hb : s.objects t with
      | none => rfl
      | some b => simp [(hcase b hb).2] at h
    · intro hb
      simp [DomainState.get_mut, hb]

/-- C6 witness: on the concrete state holding `7` under type id `3`, `get` of
the absent type id `5` is the "Not in domain" fatal error, and `get` of type
id `3` returns `7`. -/
theorem c6_get_fatal_iff_absent_witness :
    ((DomainState.empty.store 3 7).get 5 = .panic "Not in domain") ∧
    ((DomainState.empty.store 3 7).get 3 = .ok 7 ∧
      (DomainState.empty.store 3 7).get_mut 3 = .ok 7) := by
  have hwf : (DomainState.empty.store 3 7).WellFormed :=
    wellFormed_store _ _ _ wellFormed_empty
  constructor
  · exact (c6_get_fatal_iff_absent (DomainState.empty.store 3 7) 5 hwf).1.mpr
      (by rfl)
  · exact (c6_get_fatal_iff_absent (DomainState.empty.store 3 7) 3 hwf).2.2
      ⟨3, 7⟩ (by rfl)

/-- C10: storing under type id `t` does not change what is stored or read
under a distinct type id `u` (frame property of `store`). -/
theorem c10_store_frame (s : DomainState) (t u v : Nat) (h : t ≠ u) :
    (s.store t v).try_get u = s.try_get u ∧
    (s.store t v).try_get_mut u = s.try_get_mut u ∧
    (s.store t v).objects u = s.objects u := by
  have hobj : (s.store t v).objects u = s.objects u := by
    simp [DomainState.store, Ne.symm h]
  refine ⟨?_, ?_, hobj⟩
  · simp [DomainState.try_get, hobj]
  · simp [DomainState.try_get_mut, hobj]

/-- C10 witness: storing under type id `3` leaves the entry for type id `5`
(here: absent) unchanged. -/
theorem c10_store_frame_witness :
    (3 : Nat) ≠ 5 ∧
    ((DomainState.empty.store 3 7).try_get 5 = DomainState.empty.try_get 5 ∧
      (DomainState.empty.store 3 7).try_get_mut 5 =
        DomainState.empty.try_get_mut 5 ∧
      (DomainState.empty.store 3 7).objects 5 = DomainState.empty.objects 5) :=
  ⟨by decide, c10_store_frame DomainState.empty 3 5 7 (by decide)⟩

/-- C7: `store_to_domain` panics with the fatal message exactly when the
domain's initialization window has closed (its store was already read by a
running dispatch); before that it succeeds and writes the value into the
domain's store. -/
theorem c7_store_to_domain_window (s : NutState) (d : DomainId) (t v : Nat) :
    (s.initialized d = true →
      store_to_domain s d t v =
        .panic "You cannot use `store_to_domain` after initialization.") ∧
    (s.initialized d = false →
      ∃ s', store_to_domain s d t v = .ok s' ∧
        s'.domains d = (s.domains d).store t v ∧
        (∀ d', d' ≠ d → s'.domains d' = s.domains d') ∧
        s'.initialized = s.initialized) := by
  constructor
  · intro h
    simp [store_to_domain, write_domain, h]
  · intro h
    refine ⟨⟨fun k => if k = d then (s.domains d).store t v else s.domains k,
             s.initialized⟩, ?_, ?_, ?_, rfl⟩
    · simp [store_to_domain, write_domain, h]
    · simp
    · intro d' hd'
      simp [hd']

/-- C7 witness: on a concrete state, `store_to_domain` succeeds while the
initialization window is open and panics once it is closed. -/
theorem c7_store_to_domain_window_witness :
    (NutState.mk (fun _ => DomainState.empty) (fun _ => true)).initialized
        DomainId.default = true ∧
    store_to_domain
        (NutState.mk (fun _ => DomainState.empty) (fun _ => true))
        DomainId.default 3 7 =
      .panic "You cannot use `store_to_domain` after initialization." :=
  ⟨rfl,
    (c7_store_to_domain_window
        (NutState.mk (fun _ => DomainState.empty) (fun _ => true))
        DomainId.default 3 7).1 rfl⟩

/-! ## The reentrancy scenario (lib.rs `PUBLISH_ADVANCED` doc example) -/

/-- The registry after registering the scenario's single activity through
`new_activity` (so it starts `Active` in the default domain). -/
def scenarioContainer : ActivityContainer :=
  (new_activity ActivityContainer.empty).2

/-- The handle of the scenario's activity. -/
def scenarioId : Nat := (new_activity ActivityContainer.empty).1

/-- The scenario's subscriber callback: emits `Start n`, publishes `n + 1`
when `n < 3` (the publish call sits between the two prints but only
enqueues), then emits `End n`. -/
def scenarioCallback : Callback Unit := fun _ n =>
  ⟨(), [.Start n, .End n], if n < 3 then [n + 1] else []⟩

/-- The scenario's single subscription, made with the default filter. -/
def scenarioSub : Subscription Unit :=
  ⟨scenarioId, SubscriptionFilter.default, 0, scenarioCallback⟩

/-- Invocation traces follow the registered list filtered by the lifecycle
check, in order (shared helper). -/
theorem dispatchMsg_invoked_eq {Act : Type} (c : ActivityContainer) (m : Nat) :
    ∀ (subs : List (Subscription Act)) (a : Act),
      (dispatchMsg c a m subs).invoked =
        (subs.filter fun s => c.filter s.activity_id s.filter).map
          Subscription.tag := by
  intro subs
  induction subs with
  | nil => intro a; rfl
  | cons s rest ih =>
    intro a
    cases h : c.filter s.activity_id s.filter with
    | true => simp [dispatchMsg, h, ih, List.filter_cons]
    | false => simp [dispatchMsg, h, ih, List.filter_cons]

/-! ## Claims about publish and dispatch -/

/-- C1: a nested `publish` is dispatched only after the currently-dispatching
message's full subscriber list has finished (the loop emits the complete
event block of the head message before anything from the extended queue), and
the concrete reentrant scenario publishing `0` produces exactly
Start 0, End 0, Start 1, End 1, Start 2, End 2, Start 3, End 3. -/
theorem c1_reentrant_breadth_order :
    (publish scenarioContainer [scenarioSub] 8 () 0).2 =
      [.Start 0, .End 0, .Start 1, .End 1, .Start 2, .End 2,
       .Start 3, .End 3] ∧
    (∀ (Act : Type) (c : ActivityContainer) (subs : List (Subscription Act))
        (fuel : Nat) (a : Act) (m : Nat) (q : List Nat),
      (dispatchLoop c subs (fuel + 1) a (m :: q)).2 =
        (dispatchMsg c a m subs).events ++
          (dispatchLoop c subs fuel (dispatchMsg c a m subs).act
            (q ++ (dispatchMsg c a m subs).published)).2) := by
  constructor
  · rfl
  · intro Act c subs fuel a m q
    rfl

/-- C4: publishing a message type with zero subscriptions completes
successfully, leaves the activity state unchanged, emits nothing and invokes
no callback. -/
theorem c4_publish_without_subscribers {Act : Type} (c : ActivityContainer)
    (fuel : Nat) (a : Act) (m : Nat) :
    publish c ([] : List (Subscription Act)) (fuel + 1) a m = (a, []) ∧
    (dispatchMsg c a m ([] : List (Subscription Act))).invoked = [] := by
  constructor
  · simp [publish, dispatchLoop, dispatchMsg, dispatchLoop_nil]
  · rfl

/-- C8: dispatch invokes exactly the subscriptions that pass the filter, in
registration order (the trace is the order-preserving filtered registration
list), with no deduplication; and a further `subscribe` appends one more
independent delivery at the end. -/
theorem c8_registration_order {Act : Type} (c : ActivityContainer) (a : Act)
    (m : Nat) (subs : List (Subscription Act)) (s : Subscription Act) :
    (dispatchMsg c a m subs).invoked =
      (subs.filter fun s => c.filter s.activity_id s.filter).map
        Subscription.tag ∧
    (dispatchMsg c a m (subscribe subs s)).invoked =
      (dispatchMsg c a m subs).invoked ++
        (if c.filter s.activity_id s.filter then [s.tag] else []) := by
  refine ⟨dispatchMsg_invoked_eq c m subs a, ?_⟩
  cases h : c.filter s.activity_id s.filter with
  | true =>
    simp [subscribe, dispatchMsg_invoked_eq, List.filter_append,
      List.filter_cons, h]
  | false =>
    simp [subscribe, dispatchMsg_invoked_eq, List.filter_append,
      List.filter_cons, h]

/-- C2: a `no_filter()` subscription is delivered regardless of lifecycle
status; a default-filter subscription is not delivered while the activity is
`Inactive` and is delivered after `set_status(Active)`; and the filter check
passes iff not `active_only` or the activity's status is `Active`. -/
theorem c2_lifecycle_filter {Act : Type} (c : ActivityContainer)
    (s : Subscription Act) (a : Act) (m : Nat) :
    (s.filter = SubscriptionFilter.no_filter →
      (dispatchMsg c a m [s]).invoked = [s.tag]) ∧
    (s.filter = SubscriptionFilter.default →
      c.status s.activity_id = .Inactive →
      (dispatchMsg c a m [s]).invoked = []) ∧
    (s.filter = SubscriptionFilter.default →
      (dispatchMsg (c.set_status s.activity_id .Active) a m [s]).invoked =
        [s.tag]) ∧
    (c.filter s.activity_id s.filter =
      (!s.filter.active_only || (c.status s.activity_id).is_active)) := by
  refine ⟨?_, ?_, ?_, rfl⟩
  · intro h
    simp [dispatchMsg, ActivityContainer.filter, h,
      SubscriptionFilter.no_filter]
  · intro h hst
    simp [dispatchMsg, ActivityContainer.filter, h,
      SubscriptionFilter.default, hst, LifecycleStatus.is_active]
  · intro h
    simp [dispatchMsg, ActivityContainer.filter, h,
      SubscriptionFilter.default, ActivityContainer.set_status,
      LifecycleStatus.is_active]

/-- C2 witness: with a concrete registry whose activity `0` is `Inactive`, a
`no_filter()` subscription (tag 5) is invoked, a default-filter subscription
(tag 7) is not, and after `set_status(0, Active)` the default-filter
subscription is invoked. -/
theorem c2_lifecycle_filter_witness :
    (dispatchMsg ⟨1, fun _ => .Inactive, fun _ => .defaultDomain⟩ () 0
      [⟨0, SubscriptionFilter.no_filter, 5, fun a _ => ⟨a, [], []⟩⟩]).invoked =
        [5] ∧
    (dispatchMsg ⟨1, fun _ => .Inactive, fun _ => .defaultDomain⟩ () 0
      [⟨0, SubscriptionFilter.default, 7, fun a _ => ⟨a, [], []⟩⟩]).invoked =
        [] ∧
    (dispatchMsg
      (ActivityContainer.set_status
        ⟨1, fun _ => .Inactive, fun _ => .defaultDomain⟩ 0 .Active) () 0
      [⟨0, SubscriptionFilter.default, 7, fun a _ => ⟨a, [], []⟩⟩]).invoked =
        [7] :=
  ⟨(c2_lifecycle_filter ⟨1, fun _ => .Inactive, fun _ => .defaultDomain⟩
      ⟨0, SubscriptionFilter.no_filter, 5, fun a _ => ⟨a, [], []⟩⟩ () 0).1 rfl,
   (c2_lifecycle_filter ⟨1, fun _ => .Inactive, fun _ => .defaultDomain⟩
      ⟨0, SubscriptionFilter.default, 7, fun a _ => ⟨a, [], []⟩⟩ () 0).2.1
      rfl rfl,
   (c2_lifecycle_filter ⟨1, fun _ => .Inactive, fun _ => .defaultDomain⟩
      ⟨0, SubscriptionFilter.default, 7, fun a _ => ⟨a, [], []⟩⟩ () 0).2.2.1
      rfl⟩

/-- C9: `new_activity` registers the fresh activity as `Active` in the
reserved default domain, `new_domained_activity` registers it as `Active` in
the given domain, and a default-filter subscription on the fresh activity is
delivered on the very first publish without any prior `set_status` call. -/
theorem c9_new_activity_starts_active {Act : Type} (c : ActivityContainer)
    (d : Nat) (a : Act) (m : Nat) (cb : Callback Act) (tg : Nat) :
    ((new_activity c).2.status (new_activity c).1 = .Active) ∧
    ((new_activity c).2.domain (new_activity c).1 = DomainId.default) ∧
    ((new_domained_activity c d).2.status (new_domained_activity c d).1 =
      .Active) ∧
    ((new_domained_activity c d).2.domain (new_domained_activity c d).1 =
      DomainId.new d) ∧
    ((dispatchMsg (new_activity c).2 a m
        [⟨(new_activity c).1, SubscriptionFilter.default, tg, cb⟩]).invoked =
      [tg]) := by
  refine ⟨?_, ?_, ?_, ?_, ?_⟩
  · simp [new_activity, ActivityContainer.register]
  · simp [new_activity, ActivityContainer.register]
  · simp [new_domained_activity, ActivityContainer.register]
  · simp [new_domained_activity, ActivityContainer.register]
  · simp [dispatchMsg, ActivityContainer.filter, new_activity,
      ActivityContainer.register, SubscriptionFilter.default,
      LifecycleStatus.is_active]
